import Mathlib

/-!
Verification of the LXD container driver (libcloud/container/drivers/lxd.py).

The driver's pure logic is shallowly embedded below: Python strings become
Lean `String`s, Python dict-based payloads become structures of optional
fields, the filesystem and the HTTP transport become explicit oracles, and
raised exceptions become `Except` errors.  Functions keep the names of the
source where Lean allows it; leading underscores of the Python names are
dropped (`_to_container` becomes `to_container`, `_do_container_action`
becomes `do_container_action`).
-/

namespace LXD

/-! ## Python string primitives

Models of the Python `str` methods the driver uses, defined over `List Char`
so that they reduce inside the kernel. -/

/-- The characters removed by Python `str.strip()` with no argument. -/
def pyWhitespace : List Char :=
  [' ', '\t', '\n', '\r', Char.ofNat 11, Char.ofNat 12]

/-- Python `s.strip(chars)`: remove any of `chars` from both ends of `s`. -/
def stripChars (chars : List Char) (s : String) : String :=
  let l := s.data.dropWhile (fun c => chars.contains c)
  String.mk ((l.reverse.dropWhile (fun c => chars.contains c)).reverse)

/-- Python `s.startswith(pre)`. -/
def pyStartsWith (s pre : String) : Bool :=
  pre.data.isPrefixOf s.data

/-- Substring test on character lists. -/
def listInfix (needle : List Char) : List Char → Bool
  | [] => needle.isEmpty
  | c :: rest => needle.isPrefixOf (c :: rest) || listInfix needle rest

/-- Python `needle in hay` on strings. -/
def pyIn (needle hay : String) : Bool :=
  listInfix needle.data hay.data

/-- Python `s.split(sep)` for a one-character separator (never returns `[]`). -/
def splitOnChar (sep : Char) : List Char → List (List Char)
  | [] => [[]]
  | c :: rest =>
    match splitOnChar sep rest with
    | [] => [[]]
    | grp :: grps => if c = sep then [] :: grp :: grps else (c :: grp) :: grps

/-- Sequence a fallible function over a list (Python list comprehension that
may raise): `none` as soon as any element fails. -/
def mapOption (f : α → Option β) : List α → Option (List β)
  | [] => some []
  | a :: as =>
    match f a, mapOption f as with
    | some b, some bs => some (b :: bs)
    | _, _ => none

/-! ## Host normalization (lxd.py lines 45-51)

The source reads:
```
def strip_http_prefix(host):
    # strip the prefix
    prefixes = ['http://', 'https://']
    for prefix in prefixes:
        if host.startswith(prefix):
            host = host.strip(prefix)
    return host
```
Note that Python `str.strip(arg)` treats `arg` as a character set. -/

def strip_http_prefix (host : String) : String :=
  let prefixes := ["http://", "https://"]
  prefixes.foldl (fun h p => if pyStartsWith h p then stripChars p.data h else h) host

/-! ## JSON values and a model of `json.loads`

A fuel-indexed recursive-descent parser for the JSON grammar, used to model
Python `json.loads` at the precision the driver's claims need (numbers are
kept as their lexemes; `json.loads` extensions such as `NaN` are not
modelled, and string escapes are handled without surrogate pairing — none of
the claims depend on these corners).  The parser is a plain structural
recursion so that it evaluates by `rfl`. -/

inductive JValue where
  | null
  | bool (b : Bool)
  | num (lexeme : String)
  | str (s : String)
  | arr (elems : List JValue)
  | obj (fields : List (String × JValue))

/-- JSON insignificant whitespace. -/
def jsonWs (c : Char) : Bool :=
  c = ' ' || c = '\t' || c = '\n' || c = '\r'

def skipWs (cs : List Char) : List Char :=
  cs.dropWhile jsonWs

def hexVal (c : Char) : Option Nat :=
  if '0' ≤ c ∧ c ≤ '9' then some (c.toNat - 48)
  else if 'a' ≤ c ∧ c ≤ 'f' then some (c.toNat - 87)
  else if 'A' ≤ c ∧ c ≤ 'F' then some (c.toNat - 55)
  else none

/-- Parse the remainder of a JSON string literal (after the opening quote),
accumulating decoded characters in reverse. -/
def parseStrRest : List Char → List Char → Option (String × List Char)
  | _, [] => none
  | acc, c :: rest =>
    if c = '"' then some (String.mk acc.reverse, rest)
    else if c = '\\' then
      match rest with
      | [] => none
      | e :: rest2 =>
        if e = '"' then parseStrRest ('"' :: acc) rest2
        else if e = '\\' then parseStrRest ('\\' :: acc) rest2
        else if e = '/' then parseStrRest ('/' :: acc) rest2
        else if e = 'b' then parseStrRest (Char.ofNat 8 :: acc) rest2
        else if e = 'f' then parseStrRest (Char.ofNat 12 :: acc) rest2
        else if e = 'n' then parseStrRest ('\n' :: acc) rest2
        else if e = 'r' then parseStrRest ('\r' :: acc) rest2
        else if e = 't' then parseStrRest ('\t' :: acc) rest2
        else if e = 'u' then
          match rest2 with
          | h1 :: h2 :: h3 :: h4 :: rest3 =>
            match hexVal h1, hexVal h2, hexVal h3, hexVal h4 with
            | some a, some b, some c2, some d =>
              parseStrRest (Char.ofNat (((a * 16 + b) * 16 + c2) * 16 + d) :: acc) rest3
            | _, _, _, _ => none
          | _ => none
        else none
    else parseStrRest (c :: acc) rest

def spanDigits (cs : List Char) : List Char × List Char :=
  (cs.takeWhile Char.isDigit, cs.dropWhile Char.isDigit)

/-- Optional exponent part of a JSON number. -/
def parseExp (pre : List Char) (cs : List Char) : Option (String × List Char) :=
  match cs with
  | [] => some (String.mk pre, [])
  | e :: rest =>
    if e = 'e' ∨ e = 'E' then
      let (sgn, rest2) :=
        match rest with
        | '+' :: r => (['+'], r)
        | '-' :: r => (['-'], r)
        | _ => (([] : List Char), rest)
      let (ds, rest3) := spanDigits rest2
      if ds.isEmpty then none
      else some (String.mk (pre ++ [e] ++ sgn ++ ds), rest3)
    else some (String.mk pre, cs)

/-- JSON number: `-?(0|[1-9][0-9]*)(\.[0-9]+)?([eE][+-]?[0-9]+)?`,
returned as its lexeme. -/
def parseNumber (cs : List Char) : Option (String × List Char) :=
  let (sign, cs1) :=
    match cs with
    | '-' :: r => ((['-'] : List Char), r)
    | _ => ([], cs)
  match cs1 with
  | [] => none
  | c :: _ =>
    if c.isDigit then
      let (intPart, cs2) :=
        if c = '0' then ([c], cs1.tail) else spanDigits cs1
      match cs2 with
      | '.' :: cs3 =>
        let (fr, cs4) := spanDigits cs3
        if fr.isEmpty then none
        else parseExp (sign ++ intPart ++ ['.'] ++ fr) cs4
      | _ => parseExp (sign ++ intPart) cs2
    else none

def lbraceChar : Char := Char.ofNat 123

def rbraceChar : Char := Char.ofNat 125

def pyPrefix (s : String) (cs : List Char) : Bool :=
  s.data.isPrefixOf cs

/-- Pending parser obligations, so the whole parser is one structural
recursion on fuel. -/
inductive PJob where
  | val (cs : List Char)
  | arrBody (cs : List Char)
  | arrTail (acc : List JValue) (cs : List Char)
  | objBody (cs : List Char)
  | objTail (acc : List (String × JValue)) (cs : List Char)
  | member (cs : List Char)

inductive POut where
  | v (x : JValue) (rest : List Char)
  | kv (k : String) (x : JValue) (rest : List Char)

def parseRun : Nat → PJob → Option POut
  | 0, _ => none
  | fuel + 1, PJob.val cs =>
    let cs2 := skipWs cs
    match cs2 with
    | [] => none
    | c :: rest =>
      if c = '"' then
        match parseStrRest [] rest with
        | some (s, rest2) => some (POut.v (JValue.str s) rest2)
        | none => none
      else if c = lbraceChar then parseRun fuel (PJob.objBody rest)
      else if c = '[' then parseRun fuel (PJob.arrBody rest)
      else if c = 't' then
        if pyPrefix "rue" rest then some (POut.v (JValue.bool true) (rest.drop 3)) else none
      else if c = 'f' then
        if pyPrefix "alse" rest then some (POut.v (JValue.bool false) (rest.drop 4)) else none
      else if c = 'n' then
        if pyPrefix "ull" rest then some (POut.v JValue.null (rest.drop 3)) else none
      else
        match parseNumber cs2 with
        | some (lex, rest2) => some (POut.v (JValue.num lex) rest2)
        | none => none
  | fuel + 1, PJob.arrBody cs =>
    let cs2 := skipWs cs
    match cs2 with
    | ']' :: rest => some (POut.v (JValue.arr []) rest)
    | _ =>
      match parseRun fuel (PJob.val cs2) with
      | some (POut.v v rest) => parseRun fuel (PJob.arrTail [v] rest)
      | _ => none
  | fuel + 1, PJob.arrTail acc cs =>
    let cs2 := skipWs cs
    match cs2 with
    | ']' :: rest => some (POut.v (JValue.arr acc.reverse) rest)
    | ',' :: rest =>
      match parseRun fuel (PJob.val rest) with
      | some (POut.v v rest2) => parseRun fuel (PJob.arrTail (v :: acc) rest2)
      | _ => none
    | _ => none
  | fuel + 1, PJob.objBody cs =>
    let cs2 := skipWs cs
    match cs2 with
    | [] => none
    | c :: rest =>
      if c = rbraceChar then some (POut.v (JValue.obj []) rest)
      else
        match parseRun fuel (PJob.member cs2) with
        | some (POut.kv k v rest2) => parseRun fuel (PJob.objTail [(k, v)] rest2)
        | _ => none
  | fuel + 1, PJob.objTail acc cs =>
    let cs2 := skipWs cs
    match cs2 with
    | [] => none
    | c :: rest =>
      if c = rbraceChar then some (POut.v (JValue.obj acc.reverse) rest)
      else if c = ',' then
        match parseRun fuel (PJob.member rest) with
        | some (POut.kv k v rest2) => parseRun fuel (PJob.objTail ((k, v) :: acc) rest2)
        | _ => none
      else none
  | fuel + 1, PJob.member cs =>
    let cs2 := skipWs cs
    match cs2 with
    | '"' :: rest =>
      match parseStrRest [] rest with
      | some (k, rest2) =>
        match skipWs rest2 with
        | ':' :: rest3 =>
          match parseRun fuel (PJob.val rest3) with
          | some (POut.v v rest4) => some (POut.kv k v rest4)
          | _ => none
        | _ => none
      | none => none
    | _ => none

/-- Model of Python `json.loads`: parse one JSON value and require only
trailing whitespace after it. -/
def json_loads (s : String) : Option JValue :=
  match parseRun (4 * s.length + 8) (PJob.val s.data) with
  | some (POut.v v rest) => if (skipWs rest).isEmpty then some v else none
  | _ => none

/-! ## Domain model

The generic `Container`/`ContainerImage` value types of the framework
(external collaborators), restricted to the fields this driver populates. -/

inductive ContainerState where
  | RUNNING
  | STOPPED
deriving DecidableEq

structure ContainerImage where
  id : String
  name : String
  path : String
  version : String
deriving DecidableEq

structure Container where
  id : String
  name : String
  state : ContainerState
  image : ContainerImage
  ip_addresses : List String
deriving DecidableEq

/-- The metadata fields `_to_container` reads; modelling them as a structure
encodes the hypothesis that the required keys are present. -/
structure ContainerMetadata where
  architecture : String
  config : List (String × String)
  created_at : String
  name : String
  status : String
deriving DecidableEq

/-- Parsed `{status, metadata}` envelope of a container-detail response. -/
structure GetContainerResponse where
  status : String
  metadata : ContainerMetadata
deriving DecidableEq

/-- A parsed LXD-style error payload: any subset of the six
error-identifying keys may be present (values rendered as strings). -/
structure ErrorMap where
  type : Option String
  status : Option String
  status_code : Option String
  operation : Option String
  error_code : Option String
  error : Option String
deriving DecidableEq

/-- The exceptions the embedded code can raise.  `exception` stands for a
bare Python `Exception` carrying only a message. -/
inductive DriverError where
  | invalidCreds (msg : String)
  | exception (msg : String)
  | valueError (msg : String)
  | apiException (response : GetContainerResponse)
deriving DecidableEq

/-- Result of `LXDResponse.parse_body`. -/
inductive ParsedBody where
  | raw (s : String)
  | js (v : JValue)
  | jsList (vs : List JValue)

/-- The JSON body of a `PUT /containers/{name}/state` request. -/
structure StateBody where
  action : String
  timeout : Nat
  stateful : Bool
  force : Bool
deriving DecidableEq

structure Request where
  path : String
  method : String
  body : Option StateBody
deriving DecidableEq

/-- Stub transport: parsed responses for the two requests the action
dispatcher issues.  The PUT state-change response is an arbitrary JSON
value; the container refetch returns a parsed envelope. -/
structure Transport where
  state_response : StateBody → JValue
  container_response : String → GetContainerResponse

/-- Filesystem oracle for `check_certificates` (`os.path`). -/
structure FS where
  expanduser : String → String
  pathExists : String → Bool
  isfile : String → Bool

/-- Driver state after a successful construction.  `ca_cert = none` models
the Python `False` assignment (verification disabled). -/
structure LXDDriver where
  secure : Bool
  host : String
  port : Nat
  ca_cert : Option String
  version : String
  usesTLS : Bool
deriving DecidableEq

/-! ## Module constants (lxd.py lines 40-41, 138-139, 237) -/

def LXD_API_SUCCESS_STATUS : List String := ["Success"]

def LXD_API_STATE_ACTIONS : List String :=
  ["stop", "start", "restart", "freeze", "unfreeze"]

/-- `valid_response_codes = [httplib.OK, httplib.ACCEPTED, httplib.CREATED,
httplib.NO_CONTENT]`. -/
def valid_response_codes : List Nat := [200, 202, 201, 204]

def lxdVersion : String := "1.0"

/-! ## Error classifier (LXDApiException.__str__, lines 109-134) -/

def lxd_exception_str (m : ErrorMap) : String :=
  let response := " "
  let response := match m.type with
    | some v => response ++ "type: " ++ v ++ " "
    | none => response
  let response := match m.status with
    | some v => response ++ "status: " ++ v ++ " "
    | none => response
  let response := match m.status_code with
    | some v => "status_code: " ++ v ++ " "
    | none => response
  let response := match m.operation with
    | some v => "operation: " ++ v ++ " "
    | none => response
  let response := match m.error_code with
    | some v => "error_code: " ++ v ++ " "
    | none => response
  let response := match m.error with
    | some v => "error: " ++ v ++ " "
    | none => response
  if response = "" then "Empty LXDResponse" else response

/-- The labelled fragment contributed by one optionally-present key. -/
def optFrag (label : String) : Option String → String
  | some v => label ++ v ++ " "
  | none => ""

/-- Characterization of the §4.3 precedence rules of the spec: the last
present key among `status_code`, `operation`, `error_code`, `error` resets
the message to its own fragment; otherwise `type` and `status` fragments
accumulate onto the initial message (which the code initializes to a single
space; see the C2 analysis for the all-absent case). -/
def precedenceMessage (m : ErrorMap) : String :=
  match m.error with
  | some v => "error: " ++ v ++ " "
  | none =>
    match m.error_code with
    | some v => "error_code: " ++ v ++ " "
    | none =>
      match m.operation with
      | some v => "operation: " ++ v ++ " "
      | none =>
        match m.status_code with
        | some v => "status_code: " ++ v ++ " "
        | none => " " ++ optFrag "type: " m.type ++ optFrag "status: " m.status

/-! ## Response decoder (LXDResponse, lines 141-177) -/

/-- `re.search('Error: (.+?)"', body)`: capture after the leftmost
occurrence of `Error: ` at which at least one
non-newline character is followed by a double quote. -/
def reCapture : List Char → List Char → Option String
  | _, [] => none
  | acc, c :: rest =>
    if c = '"' ∧ acc ≠ [] then some (String.mk acc.reverse)
    else if c = '\n' then none
    else reCapture (c :: acc) rest

def reMatchAt (cs : List Char) : Option String :=
  if pyPrefix "Error: " cs then reCapture [] (cs.drop 7) else none

def reSearchList : List Char → Option String
  | [] => none
  | c :: rest =>
    match reMatchAt (c :: rest) with
    | some m => some m
    | none => reSearchList rest

def re_search_error (body : String) : Option String :=
  reSearchList body.data

/-- `self.body.strip().replace('\r', '').split('\n')`. -/
def decodedChunks (body : String) : List (List Char) :=
  splitOnChar '\n' ((stripChars pyWhitespace body).data.filter (fun c => c != '\r'))

/-- The `except ValueError` fallback of `parse_body` (lines 159-166). -/
def jsonDecodeFailure (body : String) : Except DriverError ParsedBody :=
  match re_search_error body with
  | some msg => Except.error (DriverError.exception msg)
  | none => Except.error (DriverError.exception "ConnectionError: Failed to parse JSON response")

/-- `LXDResponse.parse_body` (lines 141-167), over the raw body, the two
headers it reads, and the request URL. -/
def parse_body (parse_zero_length_body : Bool) (content_type transfer_encoding : Option String)
    (url body : String) : Except DriverError ParsedBody :=
  if body.length = 0 ∧ parse_zero_length_body = false then Except.ok (ParsedBody.raw body)
  else
    let ct := content_type.getD "application/json"
    if ct = "application/json" ∨ ct = "" then
      if transfer_encoding = some "chunked" ∧ pyIn "fromImage" url = true then
        match mapOption (fun chunk => json_loads (String.mk chunk)) (decodedChunks body) with
        | some vs => Except.ok (ParsedBody.jsList vs)
        | none => jsonDecodeFailure body
      else
        match json_loads body with
        | some v => Except.ok (ParsedBody.js v)
        | none => jsonDecodeFailure body
    else Except.ok (ParsedBody.raw body)

/-- `LXDResponse.parse_error` (lines 169-174); the `print` of the non-401
branch is console output and is not modelled. -/
def parse_error (status : Nat) (body : String) : Except DriverError String :=
  if status = 401 then Except.error (DriverError.invalidCreds "Invalid credentials")
  else Except.ok body

/-- `LXDResponse.success` (lines 176-177). -/
def success (status : Nat) : Bool :=
  valid_response_codes.contains status

/-! ## Credential validation (check_certificates, lines 54-97) -/

def tlsRequiresMsg : String :=
  "TLS Connection requires specification of a key file and a certificate file"

/-- Python `str(list_of_strings)`. -/
def pyStrList (l : List String) : String :=
  "[" ++ String.intercalate ", " (l.map (fun s => "'" ++ s ++ "'")) ++ "]"

def check_certificates (fs : FS) (key_file cert_file : Option String)
    (key_files_allowed cert_files_allowed : Option (List String)) :
    Except DriverError Unit :=
  match key_file, cert_file with
  | none, _ => Except.error (DriverError.invalidCreds tlsRequiresMsg)
  | _, none => Except.error (DriverError.invalidCreds tlsRequiresMsg)
  | some kf, some cf =>
    if kf = "" ∨ cf = "" then Except.error (DriverError.invalidCreds tlsRequiresMsg)
    else
      let keyCheck : Except DriverError Unit :=
        match key_files_allowed with
        | some allowed =>
          let suffix := (kf.splitOn ".").getLastD ""
          if suffix ∈ allowed then Except.ok ()
          else Except.error (DriverError.invalidCreds
            ("Valid key files are: " ++ pyStrList allowed ++ "you provided: " ++ suffix))
        | none => Except.ok ()
      match keyCheck with
      | Except.error e => Except.error e
      | Except.ok _ =>
        let certCheck : Except DriverError Unit :=
          match cert_files_allowed with
          | some allowed =>
            let suffix := (cf.splitOn ".").getLastD ""
            if suffix ∈ allowed then Except.ok ()
            else Except.error (DriverError.invalidCreds
              ("Valid certification files are: " ++ pyStrList allowed ++ "you provided: " ++ suffix))
          | none => Except.ok ()
        match certCheck with
        | Except.error e => Except.error e
        | Except.ok _ =>
          let keypath := fs.expanduser kf
          if !(fs.pathExists keypath && fs.isfile keypath) then
            Except.error (DriverError.invalidCreds
              "You need a key file to authenticate with LXD tls. This can be found in the server.")
          else
            let certpath := fs.expanduser cf
            if !(fs.pathExists certpath && fs.isfile certpath) then
              Except.error (DriverError.invalidCreds
                "You need a certificate file to authenticate with LXD tls. This can be found in the server.")
            else Except.ok ()

/-! ## Driver construction (LXDContainerDriver.__init__, lines 239-282) -/

/-- Python truthiness of an optional string argument. -/
def truthy : Option String → Bool
  | none => false
  | some s => s != ""

/-- Modelled from the spec: the generic driver base class (`ContainerDriver`
/ `BaseDriver`, not part of this repository's source file) constructs the
underlying connection during `super().__init__` — spec §4.5 step 4 — running
the certificate validator for the TLS variant (§4.4) before control returns
to the step-5 pairing check.  The driver path passes no extension
restrictions to the validator.  After the pairing check the `ca_cert` /
verification policy is applied and the stubbed API-version discovery returns
the constant string. -/
def lxd_init (fs : FS) (key secret : String) (secure : Bool) (host : String) (port : Nat)
    (key_file cert_file ca_cert : Option String) : Except DriverError LXDDriver :=
  let useTLS := truthy key_file
  let secure2 := useTLS || secure || pyStartsWith host "https://"
  let host2 := strip_http_prefix host
  let connResult : Except DriverError Unit :=
    if useTLS then check_certificates fs key_file cert_file none none else Except.ok ()
  match connResult with
  | Except.error e => Except.error e
  | Except.ok _ =>
    if (truthy key_file || truthy cert_file) && !(truthy key_file && truthy cert_file) then
      Except.error (DriverError.exception
        "Needs both private key file and certificate file for tls authentication")
    else
      Except.ok { secure := secure2, host := host2, port := port,
                  ca_cert := if truthy ca_cert then ca_cert else none,
                  version := lxdVersion, usesTLS := useTLS }

/-! ## Container mapping and lifecycle (lines 356-523) -/

/-- `_to_container` (lines 474-500): the `architecture`, `config` and
`created_at` fields are read but unused; the image is a placeholder; the IP
list is always empty; the id is the name. -/
def to_container (data : ContainerMetadata) : Container :=
  let state :=
    if data.status = "Running" then ContainerState.RUNNING else ContainerState.STOPPED
  let image : ContainerImage := { id := "?", name := "?", path := "/", version := "/" }
  { id := data.name, name := data.name, state := state, image := image, ip_addresses := [] }

/-- `get_container` (lines 356-374) applied to the parsed response envelope:
raise `LXDApiException` unless `status` is a success string, else map the
metadata. -/
def get_container (resp : GetContainerResponse) : Except DriverError Container :=
  if resp.status ∉ LXD_API_SUCCESS_STATUS then Except.error (DriverError.apiException resp)
  else Except.ok (to_container resp.metadata)

/-- `get_container` as one GET round trip against the stub transport,
recording the request it issues. -/
def get_container_via (t : Transport) (id : String) :
    Except DriverError Container × List Request :=
  (get_container (t.container_response id),
   [{ path := "/" ++ lxdVersion ++ "/containers/" ++ id, method := "GET", body := none }])

/-- `_do_container_action` (lines 502-523): reject invalid actions before
any request; force `force := false` for start/restart; send the PUT
state-change request; bind but never inspect its response (the commented-out
error check of lines 520-521); return a fresh `get_container` refetch. -/
def do_container_action (t : Transport) (containerName action : String)
    (timeout : Nat) (force stateful : Bool) :
    Except DriverError Container × List Request :=
  if action ∉ LXD_API_STATE_ACTIONS then
    (Except.error (DriverError.valueError "Invalid action specified"), [])
  else
    let force2 := if action = "start" ∨ action = "restart" then false else force
    let body : StateBody :=
      { action := action, timeout := timeout, stateful := stateful, force := force2 }
    let putReq : Request :=
      { path := "/" ++ lxdVersion ++ "/containers/" ++ containerName ++ "/state",
        method := "PUT", body := some body }
    let result := t.state_response body
    let refetch := get_container_via t containerName
    (refetch.1, putReq :: refetch.2)

/-- `start_container` (lines 376-390). -/
def start_container (t : Transport) (c : String) :
    Except DriverError Container × List Request :=
  do_container_action t c "start" 30 true true

/-- `stop_container` (lines 392-403). -/
def stop_container (t : Transport) (c : String) :
    Except DriverError Container × List Request :=
  do_container_action t c "stop" 30 true true

/-- `restart_container` (lines 405-415). -/
def restart_container (t : Transport) (c : String) :
    Except DriverError Container × List Request :=
  do_container_action t c "restart" 30 true true

/-- The body of the first (PUT) request of a lifecycle call, if any. -/
def sentStateBody (r : Except DriverError Container × List Request) : Option StateBody :=
  match r.2 with
  | req :: _ => req.body
  | [] => none

/-! ## Concrete fixtures used by witnesses and counterexamples -/

def emptyErrorMap : ErrorMap :=
  { type := none, status := none, status_code := none,
    operation := none, error_code := none, error := none }

def boomErrorMap : ErrorMap :=
  { type := none, status := none, status_code := none,
    operation := none, error_code := none, error := some "boom" }

def emptyFS : FS :=
  { expanduser := fun s => s, pathExists := fun _ => false, isfile := fun _ => false }

def witnessMetaRunning : ContainerMetadata :=
  { architecture := "x86_64", config := [], created_at := "t",
    name := "c1", status := "Running" }

def witnessMetaFrozen : ContainerMetadata :=
  { architecture := "x86_64", config := [], created_at := "t",
    name := "c1", status := "Frozen" }

def respRunning : GetContainerResponse :=
  { status := "Success", metadata := witnessMetaRunning }

def respFrozen : GetContainerResponse :=
  { status := "Success", metadata := witnessMetaFrozen }

def respOracle : String → GetContainerResponse := fun _ => respRunning

def transportA : Transport :=
  { state_response := fun _ => JValue.null, container_response := respOracle }

def transportB : Transport :=
  { state_response := fun _ => JValue.str "ignored", container_response := respOracle }

/-! ## Helper lemmas -/

theorem data_append (a b : String) : (a ++ b).data = a.data ++ b.data := rfl

theorem append_space_ne (x : String) : x ++ " " ≠ "" := by
  intro h
  have h2 : (x ++ " ").data = ([] : List Char) := by rw [h]
  rw [data_append] at h2
  simp at h2

theorem append2_space_ne (a b : String) : a ++ (b ++ " ") ≠ "" := by
  intro he
  have h2 : (a ++ (b ++ " ")).data = ([] : List Char) := by rw [he]
  simp only [data_append] at h2
  simp at h2

theorem append4_space_ne (a b c d : String) : a ++ (b ++ (c ++ (d ++ " "))) ≠ "" := by
  intro he
  have h2 : (a ++ (b ++ (c ++ (d ++ " ")))).data = ([] : List Char) := by rw [he]
  simp only [data_append] at h2
  simp at h2

theorem space_ne_empty : (" " : String) ≠ "" := by decide

theorem mapOption_eq_none_of_mem {f : α → Option β} {l : List α} {a : α}
    (ha : a ∈ l) (hfa : f a = none) : mapOption f l = none := by
  induction l with
  | nil => cases ha
  | cons x xs ih =>
    rcases List.mem_cons.mp ha with rfl | hmem
    · cases hx : mapOption f xs <;> simp [mapOption, hfa, hx]
    · cases hx : f x <;> simp [mapOption, ih hmem, hx]

theorem json_loads_empty : json_loads "" = none := rfl

theorem jsonDecodeFailure_ne_ok (body : String) (pb : ParsedBody) :
    jsonDecodeFailure body ≠ Except.ok pb := by
  unfold jsonDecodeFailure
  cases re_search_error body <;> simp

/-! ## Claim theorems -/

/-- C1 (code_bug): the spec says `strip_http_prefix` removes exactly the
matched scheme prefix once and leaves the remainder untouched; the code uses
Python `str.strip`, which removes a character *set* from both ends, so on
`"https://host.com"` it also eats the leading `h` of the host and returns
`"ost.com"` instead of `"host.com"`. -/
theorem strip_http_prefix_charset_bug :
    strip_http_prefix "https://host.com" = "ost.com" ∧
      strip_http_prefix "https://host.com" ≠ "host.com" := by
  exact ⟨by decide, by decide⟩

/-- C2 (code_bug): for a parsed error map with none of the six keys, the
spec promises the literal message `"Empty LXDResponse"`, but the code
initializes the message to a single space and then compares it with the
empty string, so the empty-response branch is dead and the rendered message
is `" "`. -/
theorem lxd_exception_str_empty_is_space :
    lxd_exception_str emptyErrorMap = " " ∧
      lxd_exception_str emptyErrorMap ≠ "Empty LXDResponse" := by
  exact ⟨rfl, by decide⟩

/-- C4 (confirmed): the message renderer checks the six keys in the fixed
order type, status, status_code, operation, error_code, error; a present
`type`/`status` appends its labelled fragment onto the accumulated message
while a present `status_code`/`operation`/`error_code`/`error` resets the
message to only its own fragment — equivalently, the rendered message is
`precedenceMessage`; in particular the map with only `error = "boom"`
renders exactly `"error: boom "`. -/
theorem lxd_exception_str_precedence :
    (∀ m : ErrorMap, lxd_exception_str m = precedenceMessage m) ∧
      lxd_exception_str boomErrorMap = "error: boom " := by
  constructor
  · intro m
    obtain ⟨t, s, sc, op, ec, er⟩ := m
    cases er <;> cases ec <;> cases op <;> cases sc <;> cases s <;> cases t <;>
      simp [lxd_exception_str, precedenceMessage, optFrag, append_space_ne,
        append2_space_ne, append4_space_ne, space_ne_empty, String.append_assoc] <;>
      (apply String.ext; simp only [data_append]; simp)
  · rfl

/-- C3, counterexample: the claim predicts the generic configuration error
for both single-file cases, but with only a key file supplied the
certificate validator rejects the missing certificate during connection
construction, so the failure is `InvalidCredentials`, not the generic
configuration exception. -/
theorem lxd_init_key_only_not_config_error :
    lxd_init emptyFS "" "" false "localhost" 8443 (some "key.pem") none none
        = Except.error (DriverError.invalidCreds tlsRequiresMsg) ∧
      DriverError.invalidCreds tlsRequiresMsg
        ≠ DriverError.exception
            "Needs both private key file and certificate file for tls authentication" := by
  exact ⟨rfl, by decide⟩

/-- C3 (corrected): at driver construction with exactly one of
key-file/cert-file supplied, construction always fails, but with different
errors: cert-file only reaches the pairing check and raises the generic
configuration exception, while key-file only is rejected earlier with
`InvalidCredentials` by the certificate validator run during connection
construction. -/
theorem lxd_init_single_file_behaviour (fs : FS) (key secret : String) (secure : Bool)
    (host : String) (port : Nat) (ca : Option String) (k c : String)
    (hk : k ≠ "") (hc : c ≠ "") :
    lxd_init fs key secret secure host port (some k) none ca
        = Except.error (DriverError.invalidCreds tlsRequiresMsg)
      ∧ lxd_init fs key secret secure host port none (some c) ca
        = Except.error (DriverError.exception
            "Needs both private key file and certificate file for tls authentication") := by
  constructor
  · have ht : truthy (some k) = true := by simp [truthy, hk]
    simp [lxd_init, ht, check_certificates]
  · simp [lxd_init, truthy, hc]

/-- C3, witness for `lxd_init_single_file_behaviour` at concrete inputs. -/
theorem lxd_init_single_file_behaviour_witness :
    lxd_init emptyFS "" "" false "localhost" 8443 none (some "cert.pem") none
      = Except.error (DriverError.exception
          "Needs both private key file and certificate file for tls authentication") :=
  (lxd_init_single_file_behaviour emptyFS "" "" false "localhost" 8443 none
    "key.pem" "cert.pem" (by decide) (by decide)).2

/-- C5 (confirmed): `start_container`/`restart_container` always send the
state-change body with `force := false`, `stop_container` always sends
`force := true`, all three send `timeout := 30` and `stateful := true`, and
for any caller-supplied force value the dispatcher overrides force to false
exactly when the action is start or restart. -/
theorem container_actions_force_policy (t : Transport) (c : String) (f : Bool) :
    sentStateBody (start_container t c)
        = some { action := "start", timeout := 30, stateful := true, force := false }
      ∧ sentStateBody (restart_container t c)
        = some { action := "restart", timeout := 30, stateful := true, force := false }
      ∧ sentStateBody (stop_container t c)
        = some { action := "stop", timeout := 30, stateful := true, force := true }
      ∧ ∀ a, a ∈ LXD_API_STATE_ACTIONS →
          sentStateBody (do_container_action t c a 30 f true)
            = some { action := a, timeout := 30, stateful := true,
                     force := if a = "start" ∨ a = "restart" then false else f } := by
  refine ⟨rfl, rfl, rfl, ?_⟩
  intro a ha
  simp only [LXD_API_STATE_ACTIONS, List.mem_cons, List.not_mem_nil, or_false] at ha
  rcases ha with rfl | rfl | rfl | rfl | rfl <;> rfl

/-- C5, witness for `container_actions_force_policy` at a concrete
transport, container and force value. -/
theorem container_actions_force_policy_witness :
    sentStateBody (do_container_action transportA "c1" "freeze" 30 true true)
      = some { action := "freeze", timeout := 30, stateful := true, force := true } := by
  have h := (container_actions_force_policy transportA "c1" true).2.2.2 "freeze" (by decide)
  simpa using h

/-- C6 (confirmed): a successful `get_container` response maps its metadata
to a `Container` whose state is RUNNING exactly when the metadata status
string is `"Running"` and STOPPED for any other status, whose id equals its
name (the metadata name), and whose IP-address list is empty. -/
theorem get_container_state_mapping (resp : GetContainerResponse)
    (h : resp.status ∈ LXD_API_SUCCESS_STATUS) :
    get_container resp = Except.ok (to_container resp.metadata)
      ∧ ((to_container resp.metadata).state = ContainerState.RUNNING
          ↔ resp.metadata.status = "Running")
      ∧ (resp.metadata.status ≠ "Running"
          → (to_container resp.metadata).state = ContainerState.STOPPED)
      ∧ (to_container resp.metadata).id = (to_container resp.metadata).name
      ∧ (to_container resp.metadata).name = resp.metadata.name
      ∧ (to_container resp.metadata).ip_addresses = [] := by
  refine ⟨?_, ?_, ?_, rfl, rfl, rfl⟩
  · simp [get_container, h]
  · by_cases hr : resp.metadata.status = "Running" <;> simp [to_container, hr]
  · intro hr
    simp [to_container, hr]

/-- C6, witness: the spec's example payloads — status `"Running"` yields a
RUNNING container named `c1`; status `"Frozen"` yields STOPPED. -/
theorem get_container_state_mapping_witness :
    get_container respRunning = Except.ok (to_container respRunning.metadata)
      ∧ (to_container respRunning.metadata).state = ContainerState.RUNNING
      ∧ (to_container respFrozen.metadata).state = ContainerState.STOPPED
      ∧ (to_container respRunning.metadata).name = "c1" := by
  have h1 := get_container_state_mapping respRunning (by decide)
  have h2 := get_container_state_mapping respFrozen (by decide)
  exact ⟨h1.1, (h1.2.1).mpr (by decide), h2.2.2.1 (by decide), by decide⟩

/-- C8 (confirmed): for any action outside
{stop, start, restart, freeze, unfreeze} the dispatcher fails with the
invalid-argument error and the recorded request trace is empty — no HTTP
request is issued. -/
theorem invalid_action_no_request (t : Transport) (c a : String) (timeout : Nat)
    (force stateful : Bool) (ha : a ∉ LXD_API_STATE_ACTIONS) :
    do_container_action t c a timeout force stateful
      = (Except.error (DriverError.valueError "Invalid action specified"), []) := by
  simp [do_container_action, ha]

/-- C8, witness at the invalid action `"pause"`. -/
theorem invalid_action_no_request_witness :
    do_container_action transportA "c1" "pause" 30 true true
      = (Except.error (DriverError.valueError "Invalid action specified"), []) :=
  invalid_action_no_request transportA "c1" "pause" 30 true true (by decide)

/-- C9 (confirmed): the error-path hook raises `InvalidCredentials` on
status 401 and returns the raw body unchanged for every other non-success
status. -/
theorem parse_error_policy (status : Nat) (body : String)
    (h401 : status ≠ 401) (hfail : success status = false) :
    parse_error 401 body = Except.error (DriverError.invalidCreds "Invalid credentials")
      ∧ parse_error status body = Except.ok body := by
  exact ⟨rfl, by simp [parse_error, h401]⟩

/-- C9, witness at status 404. -/
theorem parse_error_policy_witness :
    parse_error 401 "denied" = Except.error (DriverError.invalidCreds "Invalid credentials")
      ∧ parse_error 404 "denied" = Except.ok "denied" :=
  parse_error_policy 404 "denied" (by decide) (by decide)

/-- C10 (confirmed): for a valid action the dispatcher's outcome is
independent of the PUT state-change response (it is bound but never
inspected); the call fails exactly when the subsequent container refetch
reports a non-Success status, and otherwise returns the refetched
container. -/
theorem container_action_ignores_put_response (t t2 : Transport) (c a : String)
    (timeout : Nat) (force stateful : Bool) (ha : a ∈ LXD_API_STATE_ACTIONS)
    (hresp : t.container_response = t2.container_response) :
    do_container_action t c a timeout force stateful
        = do_container_action t2 c a timeout force stateful
      ∧ ((do_container_action t c a timeout force stateful).1
            = Except.error (DriverError.apiException (t.container_response c))
          ↔ (t.container_response c).status ∉ LXD_API_SUCCESS_STATUS)
      ∧ ((t.container_response c).status ∈ LXD_API_SUCCESS_STATUS
          → (do_container_action t c a timeout force stateful).1
              = Except.ok (to_container (t.container_response c).metadata)) := by
  have hna : ¬ a ∉ LXD_API_STATE_ACTIONS := by simpa using ha
  refine ⟨?_, ?_, ?_⟩
  · simp [do_container_action, hna, get_container_via, hresp]
  · by_cases hs : (t.container_response c).status ∈ LXD_API_SUCCESS_STATUS <;>
      simp [do_container_action, hna, get_container_via, get_container, hs]
  · intro hs
    simp [do_container_action, hna, get_container_via, get_container, hs]

/-- C10, witness: two transports that differ only in the PUT response
produce identical outcomes, and on a Success refetch the refetched
container is returned. -/
theorem container_action_ignores_put_response_witness :
    do_container_action transportA "c1" "stop" 30 true true
        = do_container_action transportB "c1" "stop" 30 true true
      ∧ (do_container_action transportA "c1" "stop" 30 true true).1
          = Except.ok (to_container (transportA.container_response "c1").metadata) := by
  have h := container_action_ignores_put_response transportA transportB "c1" "stop" 30
    true true (by decide) rfl
  exact ⟨h.1, h.2.2 (by decide)⟩

/-- C7, counterexample: the claim says that for every choice of interior
blank lines the chunked decode succeeds with blank lines skipped; on the
body `"1\n\n2"` the code maps `json.loads` over the empty middle line,
which raises, and the decode fails with the generic parse error. -/
theorem parse_body_blank_line_not_skipped :
    parse_body false (some "application/json") (some "chunked") "fromImage" "1\n\n2"
      = Except.error (DriverError.exception
          "ConnectionError: Failed to parse JSON response") := rfl

/-- C7 (corrected): for a non-empty body with JSON content type, chunked
transfer-encoding and a URL containing `fromImage`, the decoder strips the
body, removes carriage returns, splits on newlines, and parses every
resulting line — including empty ones — as a JSON value: the decode returns
the ordered parsed values exactly when every line parses, and any interior
blank line makes it fail with a parse error instead of being skipped. -/
theorem parse_body_chunked_characterization (url body : String)
    (hurl : pyIn "fromImage" url = true) (hbody : body.length ≠ 0) :
    (∀ vs, parse_body false (some "application/json") (some "chunked") url body
          = Except.ok (ParsedBody.jsList vs)
        ↔ mapOption (fun chunk => json_loads (String.mk chunk)) (decodedChunks body)
            = some vs)
      ∧ ([] ∈ decodedChunks body
          → ∃ msg, parse_body false (some "application/json") (some "chunked") url body
              = Except.error (DriverError.exception msg)) := by
  constructor
  · intro vs
    cases hm : mapOption (fun chunk => json_loads (String.mk chunk)) (decodedChunks body) with
    | none => simp [parse_body, hbody, hurl, hm, jsonDecodeFailure_ne_ok]
    | some ws => simp [parse_body, hbody, hurl, hm]
  · intro hmem
    have hf : (fun chunk => json_loads (String.mk chunk)) ([] : List Char) = none :=
      json_loads_empty
    have hm := @mapOption_eq_none_of_mem (List Char) JValue
      (fun chunk => json_loads (String.mk chunk)) (decodedChunks body) [] hmem hf
    cases hre : re_search_error body with
    | some m =>
      exact ⟨m, by simp [parse_body, hbody, hurl, hm, jsonDecodeFailure, hre]⟩
    | none =>
      exact ⟨"ConnectionError: Failed to parse JSON response",
        by simp [parse_body, hbody, hurl, hm, jsonDecodeFailure, hre]⟩

/-- C7, witness for `parse_body_chunked_characterization`: a two-line
chunked body with no blank line decodes to the two parsed values in
order. -/
theorem parse_body_chunked_characterization_witness :
    parse_body false (some "application/json") (some "chunked") "fromImage" "1\n2"
      = Except.ok (ParsedBody.jsList [JValue.num "1", JValue.num "2"]) := by
  have h := (parse_body_chunked_characterization "fromImage" "1\n2"
    (by decide) (by decide)).1 [JValue.num "1", JValue.num "2"]
  exact h.mpr rfl

end LXD
